import Mathlib

/-!
Verification development for the CoreStore scope-hierarchy storage
(`store` package, file containing `Storage`, and the configuration
resolution engine of the `config` package).

The Go code is shallowly embedded: machine `int64` IDs become `Int`
(no arithmetic is performed on them, only equality, so no overflow
modelling is needed), `dbr.NullBool` becomes a two-field structure,
nilable interface arguments become `Option`, and fallible operations
return `Except Err α`.
-/

set_option autoImplicit false

deriving instance DecidableEq for Except

namespace CsfwStore

/-- Embedding of Go's `dbr.NullBool` (`sql.NullBool`): a boolean plus a
validity flag. -/
structure NullBool where
  bool : Bool
  valid : Bool
deriving DecidableEq, Repr

/-- Raw row of the website table (`TableWebsite`): identifier, unique code,
reference to a default group, and the default flag. -/
structure TableWebsite where
  websiteID : Int
  code : String
  defaultGroupID : Int
  isDefault : NullBool
deriving DecidableEq, Repr

/-- Raw row of the group table (`TableGroup`): identifier, owning website
foreign key, and the default store reference. -/
structure TableGroup where
  groupID : Int
  websiteID : Int
  defaultStoreID : Int
deriving DecidableEq, Repr

/-- Raw row of the store table (`TableStore`): identifier, unique code and the
two (denormalized) foreign keys. -/
structure TableStore where
  storeID : Int
  code : String
  websiteID : Int
  groupID : Int
deriving DecidableEq, Repr

/-- Error kinds of the store package: the three per-entity not-found errors
(`ErrWebsiteNotFound`, `ErrGroupNotFound`, `ErrStoreNotFound`) and an opaque
database error carried by a failed table load. -/
inductive Err where
  | websiteNotFound
  | groupNotFound
  | storeNotFound
  | dbError (msg : String)
deriving DecidableEq, Repr

/-- Go `errgo.Mask` wraps an error with location information; the error kind it
carries is unchanged, which is all the embedding tracks. -/
def errgoMask (e : Err) : Err := e

/-- A value implementing `config.ScopeIDer`, possibly also `config.ScopeCoder`:
a numeric scope ID and, when the dynamic type has a `ScopeCode` method,
a scope code. `scopeCode = none` means the value does not implement
`config.ScopeCoder`. -/
structure Scope where
  scopeID : Int
  scopeCode : Option String
deriving DecidableEq, Repr

/-- Go `config.ScopeID(id)`: a plain scope ID, which implements `ScopeIDer` but
not `ScopeCoder`. It is never nil, hence the `some`. -/
def scopeIDOnly (id : Int) : Option Scope := some ⟨id, none⟩

/-- Modelled from the spec: `TableWebsiteSlice.FindByID` is not under src
(only its caller `Storage.website` is). Per the spec, a selector that
resolves to nothing fails with `WebsiteNotFound`; under duplicate rows the
first match wins. -/
def findWebsiteByID (ws : List TableWebsite) (id : Int) : Except Err TableWebsite :=
  match ws.find? (fun w => w.websiteID = id) with
  | some w => .ok w
  | none => .error .websiteNotFound

/-- Modelled from the spec: `TableWebsiteSlice.FindByCode` is not under src.
Resolves a website by its unique code; `WebsiteNotFound` on a miss. -/
def findWebsiteByCode (ws : List TableWebsite) (c : String) : Except Err TableWebsite :=
  match ws.find? (fun w => w.code = c) with
  | some w => .ok w
  | none => .error .websiteNotFound

/-- Modelled from the spec: `TableGroupSlice.FindByID` is not under src.
`GroupNotFound` on a miss. -/
def findGroupByID (gs : List TableGroup) (id : Int) : Except Err TableGroup :=
  match gs.find? (fun g => g.groupID = id) with
  | some g => .ok g
  | none => .error .groupNotFound

/-- Modelled from the spec: `TableStoreSlice.FindByID` is not under src.
`StoreNotFound` on a miss. -/
def findStoreByID (ss : List TableStore) (id : Int) : Except Err TableStore :=
  match ss.find? (fun s => s.storeID = id) with
  | some s => .ok s
  | none => .error .storeNotFound

/-- Modelled from the spec: `TableStoreSlice.FindByCode` is not under src.
Resolves a store by its unique code; `StoreNotFound` on a miss. -/
def findStoreByCode (ss : List TableStore) (c : String) : Except Err TableStore :=
  match ss.find? (fun s => s.code = c) with
  | some s => .ok s
  | none => .error .storeNotFound

/-- Composed Website view: the raw row with its Groups and the Stores
reachable through those Groups attached
(`NewWebsite(w).SetGroupsStores(groups, stores)`, modelled from the spec:
the composer attaches every Group whose website foreign key matches and
every Store reachable through those Groups). -/
structure Website where
  data : TableWebsite
  groups : List TableGroup
  stores : List TableStore
deriving DecidableEq, Repr

/-- Composed Group view: the raw row with its parent website and every Store
whose group foreign key matches attached
(`NewGroup(g, SetGroupWebsite(w)).SetStores(stores, ...)`, modelled from the
spec). -/
structure Group where
  data : TableGroup
  website : TableWebsite
  stores : List TableStore
deriving DecidableEq, Repr

/-- Composed Store view: the raw row with its composed website and composed
group attached (`NewStore(s, w, g)` followed by the `SetGroupsStores` /
`SetStores` calls in `Storage.Store`). -/
structure Store where
  data : TableStore
  website : Website
  group : Group
deriving DecidableEq, Repr

/-- Go `NewWebsite(w).SetGroupsStores(gs, ss)`, modelled from the spec's Scope
Composer: attach the groups owned by `w` and the stores belonging to those
groups. -/
def composeWebsite (w : TableWebsite) (gs : List TableGroup) (ss : List TableStore) : Website :=
  let ownGroups := gs.filter (fun g => g.websiteID = w.websiteID)
  { data := w
    groups := ownGroups
    stores := ss.filter (fun s => ownGroups.any (fun g => g.groupID = s.groupID)) }

/-- Go `NewGroup(g, SetGroupWebsite(w)).SetStores(ss, ...)`, modelled from the
spec's Scope Composer: attach the parent website and the stores owned by
`g`. -/
def composeGroup (g : TableGroup) (w : TableWebsite) (ss : List TableStore) : Group :=
  { data := g
    website := w
    stores := ss.filter (fun s => s.groupID = g.groupID) }

/-- The `Storage` struct: the three raw entity tables. The `config.Reader`
field and the mutex are not part of the sequential data model (the mutex is
treated in the lock-trace model below). -/
structure Storage where
  websites : List TableWebsite
  groups : List TableGroup
  stores : List TableStore
deriving DecidableEq, Repr

namespace Storage

/-- Go `Storage.website`: resolve a raw website row from a selector. A nil
selector fails with `WebsiteNotFound`; a non-empty code (when the selector
implements `ScopeCoder`) takes precedence over the ID. -/
def website (st : Storage) (r : Option Scope) : Except Err TableWebsite :=
  match r with
  | none => .error .websiteNotFound
  | some sc =>
    match sc.scopeCode with
    | some c =>
      if c ≠ "" then findWebsiteByCode st.websites c
      else findWebsiteByID st.websites sc.scopeID
    | none => findWebsiteByID st.websites sc.scopeID

/-- Go `Storage.Website`: resolve and compose a Website. -/
def Website' (st : Storage) (r : Option Scope) : Except Err Website :=
  match st.website r with
  | .error e => .error e
  | .ok w => .ok (composeWebsite w st.groups st.stores)

/-- Go `Storage.Websites`: compose every raw website row, in table order; never
fails. -/
def Websites (st : Storage) : Except Err (List Website) :=
  .ok (st.websites.map (fun w => composeWebsite w st.groups st.stores))

/-- Go `Storage.group`: resolve a raw group row from a selector. Only the ID is
used; the selector's code, if any, is ignored. -/
def group (st : Storage) (r : Option Scope) : Except Err TableGroup :=
  match r with
  | none => .error .groupNotFound
  | some sc => findGroupByID st.groups sc.scopeID

/-- Go `Storage.Group`: resolve a raw group, resolve its parent website by the
group's foreign key, and compose. -/
def Group' (st : Storage) (r : Option Scope) : Except Err Group :=
  match st.group r with
  | .error e => .error e
  | .ok g =>
    match st.website (scopeIDOnly g.websiteID) with
    | .error e => .error e
    | .ok w => .ok (composeGroup g w st.stores)

/-- The loop of `Storage.Groups`: compose each raw group row in order,
aborting with the first (masked) website-resolution error. -/
def groupsLoop (st : Storage) : List TableGroup → Except Err (List Group)
  | [] => .ok []
  | g :: gs =>
    match st.website (scopeIDOnly g.websiteID) with
    | .error e => .error (errgoMask e)
    | .ok w =>
      match groupsLoop st gs with
      | .error e => .error e
      | .ok rest => .ok (composeGroup g w st.stores :: rest)

/-- Go `Storage.Groups`: compose every raw group row, in table order; fails on
the first group whose website does not resolve. -/
def Groups (st : Storage) : Except Err (List Group) :=
  groupsLoop st st.groups

/-- Go `Storage.store`: resolve a raw store row from a selector. A nil selector
fails with `StoreNotFound`; a non-empty code takes precedence over the ID. -/
def store (st : Storage) (r : Option Scope) : Except Err TableStore :=
  match r with
  | none => .error .storeNotFound
  | some sc =>
    match sc.scopeCode with
    | some c =>
      if c ≠ "" then findStoreByCode st.stores c
      else findStoreByID st.stores sc.scopeID
    | none => findStoreByID st.stores sc.scopeID

/-- Go `Storage.Store`: resolve the raw store, its website and its group (each
error masked), then compose the store with its composed website and composed
group. -/
def Store' (st : Storage) (r : Option Scope) : Except Err Store :=
  match st.store r with
  | .error e => .error (errgoMask e)
  | .ok s =>
    match st.website (scopeIDOnly s.websiteID) with
    | .error e => .error (errgoMask e)
    | .ok w =>
      match st.group (scopeIDOnly s.groupID) with
      | .error e => .error (errgoMask e)
      | .ok g =>
        .ok { data := s
              website := composeWebsite w st.groups st.stores
              group := composeGroup g w st.stores }

/-- The loop of `Storage.Stores`: for each raw store row, in order, resolve a
composed store by that row's `StoreID`, aborting with the first (masked)
error. -/
def storesLoop (st : Storage) : List TableStore → Except Err (List Store)
  | [] => .ok []
  | s :: ss =>
    match st.Store' (scopeIDOnly s.storeID) with
    | .error e => .error (errgoMask e)
    | .ok cs =>
      match storesLoop st ss with
      | .error e => .error e
      | .ok rest => .ok (cs :: rest)

/-- Go `Storage.Stores`: one composed store per raw row, each resolved through
`Storage.Store` by the row's `StoreID`. -/
def Stores (st : Storage) : Except Err (List Store) :=
  storesLoop st st.stores

/-- Go `Storage.DefaultStoreView`: scan the website table for the first row whose
default flag is set and valid, follow its `DefaultGroupID` to a group and
that group's `DefaultStoreID` to a composed store; `StoreNotFound` if no
website is flagged default. -/
def DefaultStoreView (st : Storage) : Except Err Store :=
  match st.websites.find? (fun w => w.isDefault.bool && w.isDefault.valid) with
  | some website =>
    match st.group (scopeIDOnly website.defaultGroupID) with
    | .error e => .error e
    | .ok g => st.Store' (scopeIDOnly g.defaultStoreID)
  | none => .error .storeNotFound

end Storage

end CsfwStore

namespace CsfwStore

/-! Lock-and-access trace model.

Each `Storage` method is abstracted to the sequence of accesses its body
performs on the shared fields (`st.websites`, `st.groups`, `st.stores`) and
on the mutex `st.mu`, in program order. The read methods contain no call to
`st.mu.RLock` or `st.mu.Lock`; only `ReInit` locks, exclusively. -/

/-- An atomic access performed by a `Storage` method: a mutex operation, a
read of one of the three table fields, or a replacement of one of them. -/
inductive Access where
  | muLock
  | muUnlock
  | muRLock
  | muRUnlock
  | readWebsites
  | readGroups
  | readStores
  | writeWebsites
  | writeGroups
  | writeStores
deriving DecidableEq, Repr

/-- Whether an access touches the mutex. -/
def Access.isMutexOp : Access → Bool
  | .muLock | .muUnlock | .muRLock | .muRUnlock => true
  | _ => false

/-- Access trace of `Storage.Website`: `website` reads the website table, then
`SetGroupsStores` reads the group and store tables. No mutex operation. -/
def websiteTrace : List Access := [.readWebsites, .readGroups, .readStores]

/-- Access trace of `Storage.Websites`: ranges over the website table, and per
row `SetGroupsStores` reads the group and store tables. No mutex
operation. -/
def websitesTrace : List Access := [.readWebsites, .readGroups, .readStores]

/-- Access trace of `Storage.Group`: `group` reads the group table, `website`
reads the website table, `SetStores` reads the store table. No mutex
operation. -/
def groupTrace : List Access := [.readGroups, .readWebsites, .readStores]

/-- Access trace of `Storage.Groups`: ranges over the group table, per row
reading the website table and the store table. No mutex operation. -/
def groupsTrace : List Access := [.readGroups, .readWebsites, .readStores]

/-- Access trace of `Storage.Store`: `store` reads the store table, `website`
the website table, `group` the group table, then composition reads the group
and store tables again. No mutex operation. -/
def storeTrace : List Access :=
  [.readStores, .readWebsites, .readGroups, .readGroups, .readStores]

/-- Access trace of `Storage.Stores`: ranges over the store table, per row the
trace of `Storage.Store`. No mutex operation. -/
def storesTrace : List Access := .readStores :: storeTrace

/-- Access trace of `Storage.DefaultStoreView`: scans the website table, reads
the group table, then the trace of `Storage.Store`. No mutex operation. -/
def defaultStoreViewTrace : List Access := .readWebsites :: .readGroups :: storeTrace

/-- The access traces of the seven read operations of the `Storager`
interface. -/
def readOperationTraces : List (List Access) :=
  [websiteTrace, websitesTrace, groupTrace, groupsTrace,
   storeTrace, storesTrace, defaultStoreViewTrace]

/-- Access trace of `Storage.ReInit` in one schedule of its three goroutines:
exclusive lock, the three table replacements, unlock. The three writes are
separate atomic actions (one per goroutine), not a single atomic swap. -/
def reInitTrace : List Access :=
  [.muLock, .writeWebsites, .writeGroups, .writeStores, .muUnlock]

/-- The triple of tables a reader observes: one snapshot per table, each taken
at its own instant. -/
structure Obs where
  websites : List TableWebsite
  groups : List TableGroup
  stores : List TableStore
deriving DecidableEq, Repr

/-- The observation of a storage state taken atomically. -/
def Storage.tables (st : Storage) : Obs :=
  ⟨st.websites, st.groups, st.stores⟩

/-- The shared state after `ReInit` has performed its first `k` table writes
(program order: websites, groups, stores), starting from `pre` and loading
the tables of `post`. -/
def tablesAfterWrites (pre post : Storage) (k : Nat) : Storage :=
  { websites := if 1 ≤ k then post.websites else pre.websites
    groups := if 2 ≤ k then post.groups else pre.groups
    stores := if 3 ≤ k then post.stores else pre.stores }

/-- The observation of an unlocked reader that performs its three table reads
(program order of `websiteTrace`: websites, groups, stores) when `ReInit`
has completed `k1`, `k2`, `k3` of its writes respectively. The schedule is a
valid interleaving when `k1 ≤ k2 ≤ k3 ≤ 3`. -/
def readerObs (pre post : Storage) (k1 k2 k3 : Nat) : Obs :=
  { websites := (tablesAfterWrites pre post k1).websites
    groups := (tablesAfterWrites pre post k2).groups
    stores := (tablesAfterWrites pre post k3).stores }

end CsfwStore

namespace CsfwConfig

/-- A configuration value: the embedding keeps the three coercion targets the
claims touch. -/
inductive CValue where
  | vBool (b : Bool)
  | vStr (s : String)
  | vInt (n : Int)
deriving DecidableEq, Repr

/-- Modelled from the spec: a Field Definition catalog entry
(`config.Field` reached by its section/group/field path) carrying an
optional default value. The `config` package's `Field` type is not under
src (only package catalogs and `manager_test.go` are). -/
structure FieldDef where
  path : String
  default : Option CValue
deriving DecidableEq, Repr

/-- The scope kind of a recorded override. -/
inductive ScopeKind where
  | global
  | website
  | store
deriving DecidableEq, Repr

/-- Modelled from the spec: an override recorded for a
(scope-kind, scope-id, path) triple. -/
structure OverrideEntry where
  kind : ScopeKind
  scopeID : Int
  path : String
  value : CValue
deriving DecidableEq, Repr

/-- The scope context a resolution query runs under: global, a specific
website, or a specific store together with its enclosing website. -/
inductive CfgScope where
  | global
  | website (id : Int)
  | store (id : Int) (websiteID : Int)
deriving DecidableEq, Repr

/-- Resolution failure: the path has no override and no Field Definition
default. -/
inductive CfgErr where
  | notFound
deriving DecidableEq, Repr

/-- Modelled from the spec: the configuration Manager holding the Field
Definition catalog (populated by `ApplyDefaults`) and the override map
(populated by `ApplyCoreConfigData`). The `config.Manager` type is not
under src. -/
structure Manager where
  fieldDefs : List FieldDef
  overrides : List OverrideEntry
deriving DecidableEq, Repr

/-- The override recorded for an exact (scope-kind, scope-id, path) triple, if
any. -/
def Manager.lookupOverride (m : Manager) (k : ScopeKind) (id : Int) (path : String) :
    Option CValue :=
  (m.overrides.find? (fun o => o.kind = k ∧ o.scopeID = id ∧ o.path = path)).map (·.value)

/-- The Field Definition default for a path, or not-found. -/
def Manager.fieldDefault (m : Manager) (path : String) : Except CfgErr CValue :=
  match m.fieldDefs.find? (fun f => f.path = path) with
  | some f =>
    match f.default with
    | some v => .ok v
    | none => .error .notFound
  | none => .error .notFound

/-- Modelled from the spec: resolution of a (path, scope) pair. Checks, in
order: the exact-scope override, the enclosing-website override (only when
the queried scope is a store), the Field Definition default; otherwise
not-found. -/
def Manager.resolve (m : Manager) (path : String) (sc : CfgScope) : Except CfgErr CValue :=
  match sc with
  | .global =>
    match m.lookupOverride .global 0 path with
    | some v => .ok v
    | none => m.fieldDefault path
  | .website id =>
    match m.lookupOverride .website id path with
    | some v => .ok v
    | none => m.fieldDefault path
  | .store id wid =>
    match m.lookupOverride .store id path with
    | some v => .ok v
    | none =>
      match m.lookupOverride .website wid path with
      | some v => .ok v
      | none => m.fieldDefault path

end CsfwConfig

namespace CsfwStore

/-! Helper lemmas shared by the claim theorems. -/

theorem find?_eq_head?_filter {α : Type} (p : α → Bool) (l : List α) :
    l.find? p = (l.filter p).head? := by
  induction l with
  | nil => rfl
  | cons x xs ih =>
    by_cases hx : p x
    · rw [List.find?_cons_of_pos _ hx, List.filter_cons_of_pos hx, List.head?_cons]
    · rw [List.find?_cons_of_neg _ hx, List.filter_cons_of_neg hx, ih]

theorem findWebsiteByID_miss (ws : List TableWebsite) (id : Int)
    (h : ∀ w ∈ ws, w.websiteID ≠ id) :
    findWebsiteByID ws id = .error .websiteNotFound := by
  unfold findWebsiteByID
  rw [List.find?_eq_none.mpr]
  intro w hw
  simpa using h w hw

theorem findWebsiteByCode_miss (ws : List TableWebsite) (c : String)
    (h : ∀ w ∈ ws, w.code ≠ c) :
    findWebsiteByCode ws c = .error .websiteNotFound := by
  unfold findWebsiteByCode
  rw [List.find?_eq_none.mpr]
  intro w hw
  simpa using h w hw

theorem findStoreByID_miss (ss : List TableStore) (id : Int)
    (h : ∀ s ∈ ss, s.storeID ≠ id) :
    findStoreByID ss id = .error .storeNotFound := by
  unfold findStoreByID
  rw [List.find?_eq_none.mpr]
  intro s hs
  simpa using h s hs

theorem findStoreByCode_miss (ss : List TableStore) (c : String)
    (h : ∀ s ∈ ss, s.code ≠ c) :
    findStoreByCode ss c = .error .storeNotFound := by
  unfold findStoreByCode
  rw [List.find?_eq_none.mpr]
  intro s hs
  simpa using h s hs

/-- C7: `Websites()` never fails: for every storage state, including the empty
one, it returns a (possibly empty) sequence together with a nil error. -/
theorem websites_never_fails (st : Storage) : ∃ l, st.Websites = .ok l :=
  ⟨_, rfl⟩


/-- Example storage for claim C3: one website owning two groups, so that two
selectors carrying the same (matching-nothing) code but different IDs can be
compared. -/
def stDualGroups : Storage :=
  { websites := [⟨1, "base", 1, ⟨true, true⟩⟩]
    groups := [⟨1, 1, 1⟩, ⟨2, 1, 2⟩]
    stores := [] }

/-- Counterexample to C3: `Group(selector)` does not resolve by the code. Two
selectors that carry the same non-empty code but different IDs resolve to
different groups, and a selector whose code matches nothing still resolves
through its ID — so the lookup is by ID, contradicting the claim that a
supplied non-empty code takes precedence for all three entity kinds. -/
theorem group_ignores_code_counterexample :
    stDualGroups.group (some ⟨1, some "zz"⟩) = .ok ⟨1, 1, 1⟩ ∧
    stDualGroups.group (some ⟨1, some "zz"⟩) ≠ stDualGroups.group (some ⟨2, some "zz"⟩) := by
  decide

/-- C3 as amended: with a non-empty code supplied together with an ID,
`Website(selector)` and `Store(selector)` resolve by the code (the ID is
ignored), but `Group(selector)` ignores the code and always resolves by the
ID. -/
theorem code_precedence_website_store_not_group (st : Storage) (id : Int) (c : String)
    (hc : c ≠ "") :
    st.website (some ⟨id, some c⟩) = findWebsiteByCode st.websites c ∧
    st.store (some ⟨id, some c⟩) = findStoreByCode st.stores c ∧
    st.group (some ⟨id, some c⟩) = findGroupByID st.groups id := by
  refine ⟨?_, ?_, rfl⟩
  · simp [Storage.website, hc]
  · simp [Storage.store, hc]

/-- Witness for the amended C3 at a concrete storage and selector. -/
theorem code_precedence_website_store_not_group_witness :
    stDualGroups.website (some ⟨7, some "base"⟩) = findWebsiteByCode stDualGroups.websites "base" ∧
    stDualGroups.store (some ⟨7, some "base"⟩) = findStoreByCode stDualGroups.stores "base" ∧
    stDualGroups.group (some ⟨7, some "base"⟩) = findGroupByID stDualGroups.groups 7 :=
  code_precedence_website_store_not_group stDualGroups 7 "base" (by decide)

/-- Equation lemma: a selector with a non-empty code resolves websites by
code. -/
theorem website_by_code (st : Storage) (id : Int) (c : String) (hc : c ≠ "") :
    st.website (some ⟨id, some c⟩) = findWebsiteByCode st.websites c := by
  simp [Storage.website, hc]

/-- Equation lemma: a selector with an empty code resolves websites by ID. -/
theorem website_by_empty_code (st : Storage) (id : Int) :
    st.website (some ⟨id, some ""⟩) = findWebsiteByID st.websites id := by
  simp [Storage.website]

/-- Equation lemma: a selector with a non-empty code resolves stores by
code. -/
theorem store_by_code (st : Storage) (id : Int) (c : String) (hc : c ≠ "") :
    st.store (some ⟨id, some c⟩) = findStoreByCode st.stores c := by
  simp [Storage.store, hc]

/-- Equation lemma: a selector with an empty code resolves stores by ID. -/
theorem store_by_empty_code (st : Storage) (id : Int) :
    st.store (some ⟨id, some ""⟩) = findStoreByID st.stores id := by
  simp [Storage.store]

/-- C8: a `Website` lookup whose selector is absent (nil), or whose code and ID
both match no stored website row, fails with `WebsiteNotFound`; analogously
`Store` fails with `StoreNotFound`. -/
theorem selector_miss_not_found (st : Storage) (selW selS : Scope)
    (hwc : ∀ w ∈ st.websites, some w.code ≠ selW.scopeCode)
    (hwi : ∀ w ∈ st.websites, w.websiteID ≠ selW.scopeID)
    (hsc : ∀ s ∈ st.stores, some s.code ≠ selS.scopeCode)
    (hsi : ∀ s ∈ st.stores, s.storeID ≠ selS.scopeID) :
    st.Website' none = .error .websiteNotFound ∧
    st.Website' (some selW) = .error .websiteNotFound ∧
    st.Store' none = .error .storeNotFound ∧
    st.Store' (some selS) = .error .storeNotFound := by
  obtain ⟨wid, wcode⟩ := selW
  obtain ⟨sid, scode⟩ := selS
  have hw2 : st.website (some ⟨wid, wcode⟩) = .error .websiteNotFound := by
    cases wcode with
    | none => exact findWebsiteByID_miss _ _ hwi
    | some c =>
      by_cases he : c = ""
      · subst he
        rw [website_by_empty_code]
        exact findWebsiteByID_miss _ _ hwi
      · rw [website_by_code _ _ _ he]
        exact findWebsiteByCode_miss _ _
          (fun w hw hcc => hwc w hw (by rw [hcc]))
  have hs2 : st.store (some ⟨sid, scode⟩) = .error .storeNotFound := by
    cases scode with
    | none => exact findStoreByID_miss _ _ hsi
    | some c =>
      by_cases he : c = ""
      · subst he
        rw [store_by_empty_code]
        exact findStoreByID_miss _ _ hsi
      · rw [store_by_code _ _ _ he]
        exact findStoreByCode_miss _ _
          (fun s hs hcc => hsc s hs (by rw [hcc]))
  exact ⟨rfl, by simp [Storage.Website', hw2], rfl, by simp [Storage.Store', hs2, errgoMask]⟩

/-- Witness for C8: a selector matching neither code nor ID of anything in a
concrete populated storage yields the per-kind not-found errors. -/
theorem selector_miss_not_found_witness :
    Storage.Website' ⟨[⟨1, "eu", 10, ⟨true, true⟩⟩], [⟨10, 1, 100⟩], [⟨100, "eu_en", 1, 10⟩]⟩
      none = .error .websiteNotFound ∧
    Storage.Website' ⟨[⟨1, "eu", 10, ⟨true, true⟩⟩], [⟨10, 1, 100⟩], [⟨100, "eu_en", 1, 10⟩]⟩
      (some ⟨99, some "nope"⟩) = .error .websiteNotFound ∧
    Storage.Store' ⟨[⟨1, "eu", 10, ⟨true, true⟩⟩], [⟨10, 1, 100⟩], [⟨100, "eu_en", 1, 10⟩]⟩
      none = .error .storeNotFound ∧
    Storage.Store' ⟨[⟨1, "eu", 10, ⟨true, true⟩⟩], [⟨10, 1, 100⟩], [⟨100, "eu_en", 1, 10⟩]⟩
      (some ⟨99, some "nope"⟩) = .error .storeNotFound :=
  selector_miss_not_found _ ⟨99, some "nope"⟩ ⟨99, some "nope"⟩
    (by decide) (by decide) (by decide) (by decide)

theorem website_by_id (st : Storage) (id : Int) :
    st.website (scopeIDOnly id) = findWebsiteByID st.websites id := rfl

theorem group_by_id (st : Storage) (id : Int) :
    st.group (scopeIDOnly id) = findGroupByID st.groups id := rfl

theorem store_by_id (st : Storage) (id : Int) :
    st.store (scopeIDOnly id) = findStoreByID st.stores id := rfl

theorem store'_ok (st : Storage) (id : Int) (s : TableStore) (w2 : TableWebsite) (g2 : TableGroup)
    (hs : findStoreByID st.stores id = .ok s)
    (hw2 : findWebsiteByID st.websites s.websiteID = .ok w2)
    (hg2 : findGroupByID st.groups s.groupID = .ok g2) :
    st.Store' (scopeIDOnly id) =
      .ok ⟨s, composeWebsite w2 st.groups st.stores, composeGroup g2 w2 st.stores⟩ := by
  simp [Storage.Store', store_by_id, website_by_id, group_by_id, hs, hw2, hg2]

end CsfwStore

namespace CsfwStore

/-- Equation lemma: when a default-flagged website is found, `DefaultStoreView`
continues with the group and store chase. -/
theorem defaultStoreView_of_find (st : Storage) (w : TableWebsite)
    (hfind : st.websites.find? (fun x => x.isDefault.bool && x.isDefault.valid) = some w) :
    st.DefaultStoreView =
      match st.group (scopeIDOnly w.defaultGroupID) with
      | .error e => .error e
      | .ok g => st.Store' (scopeIDOnly g.defaultStoreID) := by
  unfold Storage.DefaultStoreView
  rw [hfind]

/-- The filter of default-flagged websites determines the scan in
`DefaultStoreView`: a singleton filter means the scan finds that website. -/
theorem default_find_of_filter (st : Storage) (w : TableWebsite)
    (hfilter : st.websites.filter (fun x => x.isDefault.bool && x.isDefault.valid) = [w]) :
    st.websites.find? (fun x => x.isDefault.bool && x.isDefault.valid) = some w := by
  rw [find?_eq_head?_filter, hfilter]
  rfl

/-- C4: with exactly one default-flagged website whose default-group /
default-store chain resolves (and whose reached store row itself composes),
`DefaultStoreView()` returns the store reached by following
`DefaultGroupID` to its group and that group's `DefaultStoreID`; with zero
default-flagged websites it fails with `StoreNotFound`. -/
theorem defaultStoreView_follows_default_chain (st : Storage) :
    (∀ w g s w2 g2,
      st.websites.filter (fun x => x.isDefault.bool && x.isDefault.valid) = [w] →
      findGroupByID st.groups w.defaultGroupID = .ok g →
      findStoreByID st.stores g.defaultStoreID = .ok s →
      findWebsiteByID st.websites s.websiteID = .ok w2 →
      findGroupByID st.groups s.groupID = .ok g2 →
      st.DefaultStoreView =
        .ok ⟨s, composeWebsite w2 st.groups st.stores, composeGroup g2 w2 st.stores⟩) ∧
    (st.websites.filter (fun x => x.isDefault.bool && x.isDefault.valid) = [] →
      st.DefaultStoreView = .error .storeNotFound) := by
  constructor
  · intro w g s w2 g2 hfilter hg hs hw2 hg2
    rw [defaultStoreView_of_find st w (default_find_of_filter st w hfilter)]
    rw [group_by_id, hg]
    exact store'_ok st g.defaultStoreID s w2 g2 hs hw2 hg2
  · intro hfilter
    unfold Storage.DefaultStoreView
    rw [find?_eq_head?_filter, hfilter]
    rfl

/-- Witness for C4 on the spec's running example (website `eu` → group 10 →
store `eu_en`) and on a storage with no default website. -/
theorem defaultStoreView_follows_default_chain_witness :
    Storage.DefaultStoreView ⟨[⟨1, "eu", 10, ⟨true, true⟩⟩], [⟨10, 1, 100⟩], [⟨100, "eu_en", 1, 10⟩]⟩ =
      .ok ⟨⟨100, "eu_en", 1, 10⟩,
        composeWebsite ⟨1, "eu", 10, ⟨true, true⟩⟩ [⟨10, 1, 100⟩] [⟨100, "eu_en", 1, 10⟩],
        composeGroup ⟨10, 1, 100⟩ ⟨1, "eu", 10, ⟨true, true⟩⟩ [⟨100, "eu_en", 1, 10⟩]⟩ ∧
    Storage.DefaultStoreView ⟨[⟨1, "eu", 10, ⟨false, true⟩⟩], [⟨10, 1, 100⟩], []⟩ =
      .error .storeNotFound :=
  ⟨(defaultStoreView_follows_default_chain _).1
      ⟨1, "eu", 10, ⟨true, true⟩⟩ ⟨10, 1, 100⟩ ⟨100, "eu_en", 1, 10⟩
      ⟨1, "eu", 10, ⟨true, true⟩⟩ ⟨10, 1, 100⟩
      (by decide) (by decide) (by decide) (by decide) (by decide),
   (defaultStoreView_follows_default_chain _).2 (by decide)⟩

/-- Counterexample to C5: a default-flagged website whose `DefaultGroupID`
resolves to no group makes `DefaultStoreView()` fail with `GroupNotFound`,
not `StoreNotFound`: the group-lookup error is propagated unchanged. -/
theorem defaultStoreView_groupNotFound_counterexample :
    Storage.DefaultStoreView ⟨[⟨1, "eu", 99, ⟨true, true⟩⟩], [], []⟩ = .error .groupNotFound ∧
    Err.groupNotFound ≠ Err.storeNotFound := by
  constructor
  · rfl
  · decide

/-- C5 as amended: when the default-flagged website's `DefaultGroupID` does not
resolve, `DefaultStoreView()` fails with `GroupNotFound` (the propagated
group-lookup error); when the group resolves but its `DefaultStoreID` does
not, it fails with `StoreNotFound`. -/
theorem defaultStoreView_error_kinds (st : Storage) (w : TableWebsite)
    (hfind : st.websites.find? (fun x => x.isDefault.bool && x.isDefault.valid) = some w) :
    (findGroupByID st.groups w.defaultGroupID = .error .groupNotFound →
      st.DefaultStoreView = .error .groupNotFound) ∧
    (∀ g, findGroupByID st.groups w.defaultGroupID = .ok g →
      findStoreByID st.stores g.defaultStoreID = .error .storeNotFound →
      st.DefaultStoreView = .error .storeNotFound) := by
  constructor
  · intro hg
    rw [defaultStoreView_of_find st w hfind, group_by_id, hg]
  · intro g hg hs
    rw [defaultStoreView_of_find st w hfind, group_by_id, hg]
    show st.Store' (scopeIDOnly g.defaultStoreID) = .error .storeNotFound
    unfold Storage.Store'
    rw [store_by_id, hs]
    rfl

/-- Witness for the amended C5: a dangling `DefaultGroupID` gives
`GroupNotFound`; a resolving group with a dangling `DefaultStoreID` gives
`StoreNotFound`. -/
theorem defaultStoreView_error_kinds_witness :
    Storage.DefaultStoreView ⟨[⟨1, "eu", 99, ⟨true, true⟩⟩], [], []⟩ = .error .groupNotFound ∧
    Storage.DefaultStoreView ⟨[⟨1, "eu", 10, ⟨true, true⟩⟩], [⟨10, 1, 77⟩], []⟩ =
      .error .storeNotFound :=
  ⟨(defaultStoreView_error_kinds ⟨[⟨1, "eu", 99, ⟨true, true⟩⟩], [], []⟩
      ⟨1, "eu", 99, ⟨true, true⟩⟩ (by decide)).1 (by decide),
   (defaultStoreView_error_kinds ⟨[⟨1, "eu", 10, ⟨true, true⟩⟩], [⟨10, 1, 77⟩], []⟩
      ⟨1, "eu", 10, ⟨true, true⟩⟩ (by decide)).2 ⟨10, 1, 77⟩ (by decide) (by decide)⟩

end CsfwStore

namespace CsfwStore

/-- Helper: if any group row in the list has a dangling website foreign key,
the `Groups` loop aborts with an error. -/
theorem groupsLoop_error_of_dangling (st : Storage) (l : List TableGroup) (g : TableGroup)
    (hmem : g ∈ l)
    (hw : st.website (scopeIDOnly g.websiteID) = .error .websiteNotFound) :
    ∃ e, Storage.groupsLoop st l = .error e := by
  induction l with
  | nil => cases hmem
  | cons x xs ih =>
    cases hmem with
    | head =>
      exact ⟨errgoMask .websiteNotFound, by simp [Storage.groupsLoop, hw]⟩
    | tail _ hmem' =>
      cases hx : st.website (scopeIDOnly x.websiteID) with
      | error e => exact ⟨errgoMask e, by simp [Storage.groupsLoop, hx]⟩
      | ok w =>
        obtain ⟨e, he⟩ := ih hmem'
        exact ⟨e, by simp [Storage.groupsLoop, hx, he]⟩

/-- C6: a group row whose `WebsiteID` resolves to no website row makes
`Group(selector)` abort with the website-lookup error and makes `Groups()`
abort with an error; neither returns a partially composed Group. -/
theorem dangling_group_website_aborts (st : Storage) :
    (∀ r g, st.group r = .ok g →
      st.website (scopeIDOnly g.websiteID) = .error .websiteNotFound →
      st.Group' r = .error .websiteNotFound) ∧
    (∀ g ∈ st.groups,
      st.website (scopeIDOnly g.websiteID) = .error .websiteNotFound →
      ∃ e, st.Groups = .error e) := by
  constructor
  · intro r g hg hw
    simp [Storage.Group', hg, hw]
  · intro g hmem hw
    exact groupsLoop_error_of_dangling st st.groups g hmem hw

/-- Witness for C6: a storage with a single group pointing at website 5, which
does not exist; both the single lookup and the bulk operation abort. -/
theorem dangling_group_website_aborts_witness :
    Storage.Group' ⟨[], [⟨1, 5, 1⟩], []⟩ (scopeIDOnly 1) = .error .websiteNotFound ∧
    ∃ e, Storage.Groups ⟨[], [⟨1, 5, 1⟩], []⟩ = .error e :=
  ⟨(dangling_group_website_aborts ⟨[], [⟨1, 5, 1⟩], []⟩).1 (scopeIDOnly 1) ⟨1, 5, 1⟩
      (by decide) (by decide),
   (dangling_group_website_aborts ⟨[], [⟨1, 5, 1⟩], []⟩).2 ⟨1, 5, 1⟩
      (by decide) (by decide)⟩

end CsfwStore

namespace CsfwStore

/-- Storage for the C10 counterexample: two store rows share `StoreID` 7 but
differ in code, so resolving rows through `FindByID` loses the second row. -/
def stDupStoreIDs : Storage :=
  { websites := [⟨1, "w", 1, ⟨false, true⟩⟩]
    groups := [⟨1, 1, 7⟩]
    stores := [⟨7, "a", 1, 1⟩, ⟨7, "b", 1, 1⟩] }

/-- Counterexample to C10: `Stores()` does not return one composed view per raw
row. With two rows sharing an ID, both iterations resolve the first row, so
the second returned view carries the first row's data, not the second
row's. -/
theorem stores_duplicate_id_counterexample :
    (stDupStoreIDs.Stores).map (List.map (fun cs => cs.data)) =
      .ok [⟨7, "a", 1, 1⟩, ⟨7, "a", 1, 1⟩] ∧
    ([⟨7, "a", 1, 1⟩, ⟨7, "a", 1, 1⟩] : List TableStore) ≠ stDupStoreIDs.stores := by
  constructor
  · rfl
  · decide

/-- Helper: the raw row inside each composed website produced by `Websites`. -/
theorem websites_map_data (st : Storage) (l : List TableWebsite) :
    (l.map (fun w => composeWebsite w st.groups st.stores)).map (fun v => v.data) = l := by
  induction l with
  | nil => rfl
  | cons x xs ih =>
    rw [List.map_cons, List.map_cons, ih]
    rfl

/-- Helper: a successful `Groups` loop yields exactly the input rows as the
`data` fields, in order. -/
theorem groupsLoop_data (st : Storage) (l : List TableGroup) (out : List Group)
    (h : Storage.groupsLoop st l = .ok out) : out.map (fun v => v.data) = l := by
  induction l generalizing out with
  | nil =>
    simp only [Storage.groupsLoop] at h
    injection h with h
    subst h
    rfl
  | cons x xs ih =>
    simp only [Storage.groupsLoop] at h
    cases hx : st.website (scopeIDOnly x.websiteID) with
    | error e => rw [hx] at h; simp at h
    | ok w =>
      rw [hx] at h
      cases hrest : Storage.groupsLoop st xs with
      | error e => rw [hrest] at h; simp at h
      | ok rest =>
        rw [hrest] at h
        simp only at h
        injection h with h
        subst h
        simp [ih rest hrest, composeGroup]

/-- Helper: under pairwise-distinct store IDs, scanning for a member's ID finds
that member itself. -/
theorem find?_storeID_self (ss : List TableStore) (s : TableStore)
    (hdist : ss.Pairwise (fun a b => a.storeID ≠ b.storeID)) (hmem : s ∈ ss) :
    ss.find? (fun t => t.storeID = s.storeID) = some s := by
  induction ss with
  | nil => cases hmem
  | cons x xs ih =>
    cases hmem with
    | head =>
      rw [List.find?_cons_of_pos]
      simp
    | tail _ hmem' =>
      have hx : x.storeID ≠ s.storeID := (List.pairwise_cons.mp hdist).1 s hmem'
      rw [List.find?_cons_of_neg]
      · exact ih (List.pairwise_cons.mp hdist).2 hmem'
      · simpa using hx

/-- Helper: a composed store returned by `Storage.Store` for an ID-only
selector carries exactly the row `FindByID` resolves for that ID. -/
theorem store'_data (st : Storage) (i : Int) (cs : Store)
    (h : st.Store' (scopeIDOnly i) = .ok cs) : findStoreByID st.stores i = .ok cs.data := by
  unfold Storage.Store' at h
  rw [store_by_id] at h
  cases hs : findStoreByID st.stores i with
  | error e => rw [hs] at h; simp at h
  | ok s =>
    rw [hs] at h
    simp only at h
    cases hw : st.website (scopeIDOnly s.websiteID) with
    | error e => rw [hw] at h; simp at h
    | ok w =>
      rw [hw] at h
      simp only at h
      cases hg : st.group (scopeIDOnly s.groupID) with
      | error e => rw [hg] at h; simp at h
      | ok g =>
        rw [hg] at h
        simp only at h
        injection h with h
        rw [← h]

/-- Helper: when every row of the list resolves through `Storage.Store` to a
view carrying that same row, a successful `Stores` loop returns exactly the
input rows as the `data` fields, in order. -/
theorem storesLoop_data (st : Storage) (l : List TableStore) (out : List Store)
    (hself : ∀ s ∈ l, ∀ cs, st.Store' (scopeIDOnly s.storeID) = .ok cs → cs.data = s)
    (h : Storage.storesLoop st l = .ok out) : out.map (fun v => v.data) = l := by
  induction l generalizing out with
  | nil =>
    simp only [Storage.storesLoop] at h
    injection h with h
    subst h
    rfl
  | cons x xs ih =>
    simp only [Storage.storesLoop] at h
    cases hx : st.Store' (scopeIDOnly x.storeID) with
    | error e => rw [hx] at h; simp at h
    | ok cs =>
      rw [hx] at h
      cases hrest : Storage.storesLoop st xs with
      | error e => rw [hrest] at h; simp at h
      | ok rest =>
        rw [hrest] at h
        simp only at h
        injection h with h
        subst h
        have hd : cs.data = x := hself x (List.mem_cons_self x xs) cs hx
        have ht := ih rest (fun s hs => hself s (List.mem_cons_of_mem x hs)) hrest
        simp [hd, ht]

/-- C10 as amended: `Websites()` always, and `Groups()` whenever it succeeds,
return exactly one composed view per raw row in table order (the i-th
view's raw row is the i-th table row). `Stores()` resolves each row through
`FindByID` on its `StoreID`, so the same holds for it only when store IDs
are pairwise distinct; with duplicate IDs the view for a later duplicate
carries the first matching row. -/
theorem bulk_ops_preserve_rows (st : Storage) :
    (∃ l, st.Websites = .ok l ∧ l.map (fun v => v.data) = st.websites) ∧
    (∀ out, st.Groups = .ok out → out.map (fun v => v.data) = st.groups) ∧
    (st.stores.Pairwise (fun a b => a.storeID ≠ b.storeID) →
      ∀ out, st.Stores = .ok out → out.map (fun v => v.data) = st.stores) := by
  refine ⟨⟨_, rfl, websites_map_data st st.websites⟩, ?_, ?_⟩
  · intro out h
    exact groupsLoop_data st st.groups out h
  · intro hdist out h
    refine storesLoop_data st st.stores out ?_ h
    intro s hs cs hcs
    have h1 : findStoreByID st.stores s.storeID = .ok cs.data := store'_data st _ cs hcs
    have h2 : findStoreByID st.stores s.storeID = .ok s := by
      unfold findStoreByID
      rw [find?_storeID_self st.stores s hdist hs]
    rw [h1] at h2
    injection h2

/-- Witness for the amended C10 on the spec's running example (one website, one
group, one store, all IDs distinct). -/
theorem bulk_ops_preserve_rows_witness :
    (∃ l, Storage.Websites ⟨[⟨1, "eu", 10, ⟨true, true⟩⟩], [⟨10, 1, 100⟩], [⟨100, "eu_en", 1, 10⟩]⟩ =
        .ok l ∧ l.map (fun v => v.data) = [⟨1, "eu", 10, ⟨true, true⟩⟩]) ∧
    ([composeGroup ⟨10, 1, 100⟩ ⟨1, "eu", 10, ⟨true, true⟩⟩ [⟨100, "eu_en", 1, 10⟩]].map
        (fun v => v.data) = [⟨10, 1, 100⟩]) ∧
    ([(⟨⟨100, "eu_en", 1, 10⟩,
        composeWebsite ⟨1, "eu", 10, ⟨true, true⟩⟩ [⟨10, 1, 100⟩] [⟨100, "eu_en", 1, 10⟩],
        composeGroup ⟨10, 1, 100⟩ ⟨1, "eu", 10, ⟨true, true⟩⟩ [⟨100, "eu_en", 1, 10⟩]⟩ : Store)].map
        (fun v => v.data) = [⟨100, "eu_en", 1, 10⟩]) :=
  ⟨(bulk_ops_preserve_rows
      ⟨[⟨1, "eu", 10, ⟨true, true⟩⟩], [⟨10, 1, 100⟩], [⟨100, "eu_en", 1, 10⟩]⟩).1,
   (bulk_ops_preserve_rows
      ⟨[⟨1, "eu", 10, ⟨true, true⟩⟩], [⟨10, 1, 100⟩], [⟨100, "eu_en", 1, 10⟩]⟩).2.1
      [composeGroup ⟨10, 1, 100⟩ ⟨1, "eu", 10, ⟨true, true⟩⟩ [⟨100, "eu_en", 1, 10⟩]] (by rfl),
   (bulk_ops_preserve_rows
      ⟨[⟨1, "eu", 10, ⟨true, true⟩⟩], [⟨10, 1, 100⟩], [⟨100, "eu_en", 1, 10⟩]⟩).2.2 (by simp)
      [(⟨⟨100, "eu_en", 1, 10⟩,
        composeWebsite ⟨1, "eu", 10, ⟨true, true⟩⟩ [⟨10, 1, 100⟩] [⟨100, "eu_en", 1, 10⟩],
        composeGroup ⟨10, 1, 100⟩ ⟨1, "eu", 10, ⟨true, true⟩⟩ [⟨100, "eu_en", 1, 10⟩]⟩ : Store)]
      (by rfl)⟩

end CsfwStore

namespace CsfwStore

/-- Pre-reload state for the C2 interleaving counterexample. -/
def preReload : Storage :=
  { websites := [⟨1, "old", 1, ⟨true, true⟩⟩]
    groups := [⟨1, 1, 1⟩]
    stores := [⟨1, "old_s", 1, 1⟩] }

/-- Post-reload state for the C2 interleaving counterexample. -/
def postReload : Storage :=
  { websites := [⟨2, "new", 2, ⟨true, true⟩⟩]
    groups := [⟨2, 2, 2⟩]
    stores := [⟨2, "new_s", 2, 2⟩] }

/-- Counterexample to C2: the read operations do not take the shared lock — the
body of `Storage.Website` performs its three table reads with no `RLock`
call — and consequently the valid interleaving that schedules all three
reads after `ReInit`'s websites write but before its groups and stores
writes (read positions 1, 1, 1 of 3 writes) observes new websites combined
with old groups and stores: neither the full pre-reload nor the full
post-reload state. -/
theorem readers_unlocked_counterexample :
    Access.muRLock ∉ websiteTrace ∧
    (1 ≤ 1 ∧ 1 ≤ 1 ∧ (1 : Nat) ≤ 3) ∧
    readerObs preReload postReload 1 1 1 ≠ preReload.tables ∧
    readerObs preReload postReload 1 1 1 ≠ postReload.tables := by
  decide

/-- C2 as amended: none of the seven read operations performs any mutex
operation at all (in particular no shared lock), while `ReInit` does take
and release the exclusive lock around its three table writes; because
readers are unlocked, a valid interleaving of a read with `ReInit`'s three
separate table writes can observe a mixed state that is neither the full
pre-reload nor the full post-reload table triple. -/
theorem readers_take_no_lock_reinit_exclusive :
    (∀ t ∈ readOperationTraces, ∀ a ∈ t, a.isMutexOp = false) ∧
    Access.muLock ∈ reInitTrace ∧
    Access.muUnlock ∈ reInitTrace ∧
    (∃ k1 k2 k3 : Nat, k1 ≤ k2 ∧ k2 ≤ k3 ∧ k3 ≤ 3 ∧
      readerObs preReload postReload k1 k2 k3 ≠ preReload.tables ∧
      readerObs preReload postReload k1 k2 k3 ≠ postReload.tables) := by
  refine ⟨by decide, by decide, by decide, 1, 1, 1, ?_⟩
  decide

end CsfwStore

namespace CsfwConfig

/-- Helper: with no overrides recorded, every override lookup misses. -/
theorem lookupOverride_of_no_overrides (m : Manager) (k : ScopeKind) (id : Int) (path : String)
    (h : m.overrides = []) : m.lookupOverride k id path = none := by
  unfold Manager.lookupOverride
  rw [h]
  rfl

/-- Helper: the catalog fallback returns the found field definition's default
value. -/
theorem fieldDefault_of_find (m : Manager) (path : String) (fd : FieldDef) (v : CValue)
    (h1 : m.fieldDefs.find? (fun f => f.path = path) = some fd)
    (h2 : fd.default = some v) : m.fieldDefault path = .ok v := by
  simp [Manager.fieldDefault, h1, h2]

/-- Helper: the catalog fallback misses when every field definition for the
path lacks a default (including when the path has no definition at all). -/
theorem fieldDefault_notFound (m : Manager) (path : String)
    (h : ∀ f ∈ m.fieldDefs, f.path = path → f.default = none) :
    m.fieldDefault path = .error .notFound := by
  unfold Manager.fieldDefault
  cases hf : m.fieldDefs.find? (fun f => f.path = path) with
  | none => rfl
  | some f =>
    have hd : f.default = none :=
      h f (List.mem_of_find?_eq_some hf) (by simpa using List.find?_some hf)
    simp [hd]

/-- C9: with no override recorded at any scope, resolving a path whose Field
Definition carries a default returns that default, at every scope kind;
resolving a path with no default (or no Field Definition) and no override
signals not-found. -/
theorem resolve_defaults (m : Manager) (path : String) (sc : CfgScope) (v : CValue) :
    (m.overrides = [] →
      ∀ fd, m.fieldDefs.find? (fun f => f.path = path) = some fd →
      fd.default = some v →
      m.resolve path sc = .ok v) ∧
    (m.overrides = [] →
      (∀ f ∈ m.fieldDefs, f.path = path → f.default = none) →
      m.resolve path sc = .error .notFound) := by
  constructor
  · intro hov fd hfd hdv
    have ho := fun k id => lookupOverride_of_no_overrides m k id path hov
    have hfde := fieldDefault_of_find m path fd v hfd hdv
    cases sc with
    | global => simp [Manager.resolve, ho, hfde]
    | website id => simp [Manager.resolve, ho, hfde]
    | store id wid => simp [Manager.resolve, ho, hfde]
  · intro hov hnone
    have ho := fun k id => lookupOverride_of_no_overrides m k id path hov
    have hfde := fieldDefault_notFound m path hnone
    cases sc with
    | global => simp [Manager.resolve, ho, hfde]
    | website id => simp [Manager.resolve, ho, hfde]
    | store id wid => simp [Manager.resolve, ho, hfde]

/-- Witness for C9, mirroring the `TestScopeApplyDefaults` fixture: a catalog
with a defaulted path resolves to the default with no overrides present, and
an undefined path resolves to not-found (here at store scope). -/
theorem resolve_defaults_witness :
    Manager.resolve ⟨[⟨"contact/email/recipient_email", some (.vStr "hello@example.com")⟩], []⟩
      "contact/email/recipient_email" .global = .ok (.vStr "hello@example.com") ∧
    Manager.resolve ⟨[⟨"contact/email/recipient_email", some (.vStr "hello@example.com")⟩], []⟩
      "contact/contact/enabled" (.store 3 1) = .error .notFound :=
  ⟨(resolve_defaults ⟨[⟨"contact/email/recipient_email", some (.vStr "hello@example.com")⟩], []⟩
      "contact/email/recipient_email" .global (.vStr "hello@example.com")).1 rfl
      ⟨"contact/email/recipient_email", some (.vStr "hello@example.com")⟩ (by decide) (by decide),
   (resolve_defaults ⟨[⟨"contact/email/recipient_email", some (.vStr "hello@example.com")⟩], []⟩
      "contact/contact/enabled" (.store 3 1) (.vStr "unused")).2 rfl (by decide)⟩

end CsfwConfig

namespace CsfwStore

/-! Concurrent model of the failure path of `Storage.ReInit`.

The Go `ReInit` holds the exclusive lock and spawns three goroutines, one per
table; each goroutine clears its table (`st.X = nil`), runs `st.X.Load(...)`
(which on success assigns the loaded rows through the pointer receiver and on
failure leaves the cleared slice), and then sends its error on the unbuffered
channel `errc`. The main body receives three results but returns on the
first non-nil error received, after setting all three tables to nil. The
goroutines are not joined before that early return: no synchronization
orders a still-running goroutine's clear-and-load behind the main body's
error-path clear or behind the return (the only ordering edges are each
goroutine's own program order and the send/receive pairing of results main
actually received). A straggler goroutine therefore can execute its
`st.X = nil; st.X.Load(...)` after `ReInit` has returned the error — and its
later send on the by-then-closed `errc` panics; the embedding tracks only
the table states. -/

/-- An atomic effect on the three table fields during a `ReInit` execution:
each goroutine's clear and load result, and the main body's error-path clear
and return. `mainReturnErr` has no state effect; it marks the point at which
`ReInit` returns its error to the caller. -/
inductive ReInitEvent where
  | clearWebsites
  | loadWebsitesOk (rows : List TableWebsite)
  | clearGroups
  | loadGroupsFail
  | clearStores
  | loadStoresOk (rows : List TableStore)
  | mainClearAll
  | mainReturnErr
deriving DecidableEq, Repr

/-- State effect of one `ReInit` event on the shared tables. A failed load
leaves the goroutine's cleared slice; the main body's error path clears all
three tables. -/
def applyReInitEvent (st : Storage) : ReInitEvent → Storage
  | .clearWebsites => { st with websites := [] }
  | .loadWebsitesOk rows => { st with websites := rows }
  | .clearGroups => { st with groups := [] }
  | .loadGroupsFail => st
  | .clearStores => { st with stores := [] }
  | .loadStoresOk rows => { st with stores := rows }
  | .mainClearAll => { websites := [], groups := [], stores := [] }
  | .mainReturnErr => st

/-- The shared table state after running a schedule of `ReInit` events. -/
def runReInitSchedule (st : Storage) (sched : List ReInitEvent) : Storage :=
  sched.foldl applyReInitEvent st

/-- Events of one valid failing execution up to the error return: the stores
goroutine completes (loading an empty table) and sends nil; the groups
goroutine clears, its load fails, and it sends its error; the main body
receives the nil result and then the error, clears all three tables, and
returns the error. Every ordering here follows an edge present in the
source: program order inside each goroutine, and main's clear-and-return
after its receive of the groups goroutine's send. -/
def reInitErrorPathEvents : List ReInitEvent :=
  [.clearStores, .loadStoresOk [], .clearGroups, .loadGroupsFail,
   .mainClearAll, .mainReturnErr]

/-- Events of the straggler websites goroutine, which never ran before the
error return: its clear and its successful load of one row execute after
`mainReturnErr`, which no synchronization in the source forbids. -/
def reInitStragglerEvents : List ReInitEvent :=
  [.clearWebsites, .loadWebsitesOk [⟨2, "new", 2, ⟨true, true⟩⟩]]

/-- C1 fails on the code: at the moment `ReInit` returns its error all three
tables are indeed empty, but the straggler websites goroutine then
repopulates the websites table, so the state observable after the error
return (readers take no lock) is a partially populated mix — `Websites()`
is non-empty while the other two tables are empty — contradicting the
claim and `ReInit`'s own doc comment that on error all internal slices
will be reset. -/
theorem reInit_straggler_repopulates :
    runReInitSchedule preReload reInitErrorPathEvents = ⟨[], [], []⟩ ∧
    runReInitSchedule preReload (reInitErrorPathEvents ++ reInitStragglerEvents) =
      ⟨[⟨2, "new", 2, ⟨true, true⟩⟩], [], []⟩ ∧
    (runReInitSchedule preReload (reInitErrorPathEvents ++ reInitStragglerEvents)).Websites ≠
      .ok [] ∧
    (runReInitSchedule preReload (reInitErrorPathEvents ++ reInitStragglerEvents)).Groups =
      .ok [] ∧
    (runReInitSchedule preReload (reInitErrorPathEvents ++ reInitStragglerEvents)).Stores =
      .ok [] := by
  decide

end CsfwStore
